import Mathlib

/-!
Verification development for the `pypm_test` instrument-automation layer.

The Python sources (`keysight_u3606_wrapper.py`, `keysight_u2723_wrapper.py`)
drive two bench instruments over a text command protocol.  Every wrapper
operation is embedded here as a pure function from its (well-typed) arguments
to the finite sequence of protocol commands it writes to the device handle,
together with an outcome flag recording whether the Python call returned
normally or raised an exception.  Commands are represented by abstract
constructors carrying exactly the parameters that the Python code substitutes
into the corresponding format string; numeric instrument parameters are
modelled as rationals.
-/

namespace PyPMTest

/-- Outcome of a Python call: returned normally, or raised an exception. -/
inductive PyOutcome
  | ok
  | raised
deriving DecidableEq

/-- Enumeration `DCOutputMode` of `keysight_u3606_wrapper.py`. -/
inductive DCOutputMode
  | CONSTANT_VOLTAGE
  | CONSTANT_CURRENT
deriving DecidableEq

/-- Enumeration `DCOutputVoltageRange` of `keysight_u3606_wrapper.py`. -/
inductive DCOutputVoltageRange
  | MAX
  | MIN
  | AUTO
deriving DecidableEq

/-- Enumeration `DCOutputCurrentRange` of `keysight_u3606_wrapper.py`. -/
inductive DCOutputCurrentRange
  | MAX
  | DEFAULT
  | MIN
  | AUTO
deriving DecidableEq

/-- Abstract form of the protocol commands written by `KeysightU3606Wrapper`.
`raw` stands for an uninterpreted SCPI string handed to the generic
`write`/`query` escape hatch, identified by an opaque payload number. -/
inductive U36Cmd
  | outpStat (st : Bool)
  | sourVoltLevImmAmpl (v : ℚ)
  | sourCurrLevImmAmpl (v : ℚ)
  | sourCurrLim (v : ℚ)
  | sourVoltLim (v : ℚ)
  | sourVoltRang (r : DCOutputVoltageRange)
  | sourCurrRang (r : DCOutputCurrentRange)
  | wai
  | raw (payload : ℕ)
deriving DecidableEq

/-- Python `str.find` specialised to a single-character needle: index of the
first occurrence of the character, `-1` when absent. -/
def pyStrFindChar (needle : Char) : List Char → ℤ
  | [] => -1
  | c :: rest =>
    if c = needle then 0
    else if pyStrFindChar needle rest = -1 then -1
    else pyStrFindChar needle rest + 1

namespace U3606

/-- Constant `MAX_VOLTAGE_LIMIT = 30` (V) of `keysight_u3606_wrapper.py`. -/
def MAX_VOLTAGE_LIMIT : ℚ := 30

/-- Constant `MAX_CURRENT_LIMIT = 1.05` (A) of `keysight_u3606_wrapper.py`. -/
def MAX_CURRENT_LIMIT : ℚ := 1.05

/-- Embedding of `KeysightU3606Wrapper.enable_dc_output`:
writes `OUTP:STAT ON`. -/
def enable_dc_output : List U36Cmd := [.outpStat true]

/-- Embedding of `KeysightU3606Wrapper.disable_dc_output`:
writes `OUTP:STAT OFF`. -/
def disable_dc_output : List U36Cmd := [.outpStat false]

/-- Embedding of `KeysightU3606Wrapper.set_dc_supply_output_voltage`:
raises (writing nothing) when the argument is outside `[0, MAX_VOLTAGE_LIMIT]`,
else writes `SOUR:VOLT:LEV:IMM:AMPL <v>`. -/
def set_dc_supply_output_voltage (output_voltage : ℚ) :
    List U36Cmd × PyOutcome :=
  if output_voltage < 0 ∨ output_voltage > MAX_VOLTAGE_LIMIT then
    ([], .raised)
  else
    ([.sourVoltLevImmAmpl output_voltage], .ok)

/-- Embedding of `KeysightU3606Wrapper.set_dc_supply_output_current`:
raises (writing nothing) when the argument is outside `[0, MAX_CURRENT_LIMIT]`,
else writes `SOUR:CURR:LEV:IMM:AMPL <v>`. -/
def set_dc_supply_output_current (output_current : ℚ) :
    List U36Cmd × PyOutcome :=
  if output_current < 0 ∨ output_current > MAX_CURRENT_LIMIT then
    ([], .raised)
  else
    ([.sourCurrLevImmAmpl output_current], .ok)

/-- Embedding of `KeysightU3606Wrapper.configure_dc_supply` for well-typed
arguments (the leading `isinstance` checks of the Python code cannot fail
for arguments of the enumeration types and write nothing).  The body first
performs the `disable_dc_output` write, then in CV mode runs
`set_dc_supply_output_voltage` followed by the `SOUR:CURR:LIM` and
`SOUR:VOLT:RANG` writes, and in CC mode runs
`set_dc_supply_output_current` followed by the `SOUR:VOLT:LIM` and
`SOUR:CURR:RANG` writes; an exception raised by the setter propagates,
truncating the trace at that point. -/
def configure_dc_supply (output_mode : DCOutputMode) (output_value : ℚ)
    (over_voltage_limit : ℚ) (over_current_limit : ℚ)
    (voltage_range : DCOutputVoltageRange)
    (current_range : DCOutputCurrentRange) : List U36Cmd × PyOutcome :=
  match output_mode with
  | .CONSTANT_VOLTAGE =>
    match set_dc_supply_output_voltage output_value with
    | (t, .raised) => (disable_dc_output ++ t, .raised)
    | (t, .ok) =>
      (disable_dc_output ++ t ++
        [.sourCurrLim over_current_limit, .sourVoltRang voltage_range], .ok)
  | .CONSTANT_CURRENT =>
    match set_dc_supply_output_current output_value with
    | (t, .raised) => (disable_dc_output ++ t, .raised)
    | (t, .ok) =>
      (disable_dc_output ++ t ++
        [.sourVoltLim over_voltage_limit, .sourCurrRang current_range], .ok)

/-- Embedding of `KeysightU3606Wrapper.wait`: writes `*WAI`. -/
def wait : List U36Cmd := [.wai]

/-- Embedding of the generic `KeysightU3606Wrapper.write`: first calls
`wait` (writing `*WAI`), then writes the caller-supplied command. -/
def write (send_command : ℕ) : List U36Cmd := wait ++ [.raw send_command]

/-- Embedding of the generic `KeysightU3606Wrapper.query`: first calls
`wait` (writing `*WAI`), then sends the caller-supplied query. -/
def query (query_command : ℕ) : List U36Cmd := wait ++ [.raw query_command]

/-- Embedding of `KeysightU3606Wrapper.is_operation_complete` as a function
of the reply text to the `*OPC?` query: the Python code computes
`reply.find("1")` and returns `True` exactly when that index is `0`. -/
def is_operation_complete (reply : List Char) : Bool :=
  pyStrFindChar '1' reply = 0

end U3606

/-- One step of the regex engine for `\d+`: requires at least one decimal
digit, then greedily consumes the remaining digits, returning the rest of
the input (`none` when the input does not start with a digit). -/
def matchDigits1 : List Char → Option (List Char)
  | [] => none
  | c :: rest => if c.isDigit then some (rest.dropWhile Char.isDigit) else none

/-- Python `$` in `re.match`: matches at the end of the string or just
before a newline at the end of the string. -/
def matchLineEnd (s : List Char) : Bool :=
  s = [] ∨ s = ['\n']

/-- Unsigned part of the regular expression of `read_logged_data`: one or
more digits, a mandatory dot followed by one or more digits, then the end
anchor. -/
def unsignedDecimalMatch (t : List Char) : Bool :=
  match matchDigits1 t with
  | none => false
  | some s2 =>
    match s2 with
    | '.' :: s3 =>
      match matchDigits1 s3 with
      | none => false
      | some s4 => matchLineEnd s4
    | _ => false

/-- Embedding of the pattern match performed by
`KeysightU3606Wrapper.read_logged_data`:
`re.match` of the regular expression anchored at the start, consisting of an
optional minus sign (committed when the input starts with one, which is
equivalent to the regex semantics because a minus sign is not a digit),
followed by the unsigned decimal pattern. -/
def loggedDataNumericMatch (s : List Char) : Bool :=
  unsignedDecimalMatch (match s with
    | c :: rest => if c = '-' then rest else c :: rest
    | [] => [])

/-- Result classification of `read_logged_data`: the reply is either coerced
to a float (`num`) or returned as raw text (`txt`). -/
inductive LoggedDatum
  | num (s : List Char)
  | txt (s : List Char)
deriving DecidableEq

/-- Embedding of `KeysightU3606Wrapper.read_logged_data` as a function of the
reply text to the `LOG:DATA?` query: when the regex does not match the reply
is returned as a string, otherwise it is converted to a float. -/
def read_logged_data (logged_data : List Char) : LoggedDatum :=
  if loggedDataNumericMatch logged_data then .num logged_data
  else .txt logged_data

/-- A character list that is empty or does not start with a digit (the
positions at which a greedy `\d+` stops). -/
def headNotDigit : List Char → Bool
  | [] => true
  | c :: _ => !c.isDigit

/-- Specification-side shape of the replies classified numeric by the
amended claim: an optional minus sign, a nonempty digit run, a dot, a
second nonempty digit run, and nothing after it except an optional single
trailing newline. -/
def decimalTokenShape (s : List Char) : Prop :=
  ∃ (sign ds₁ ds₂ tail : List Char),
    (sign = [] ∨ sign = ['-'])
    ∧ 0 < ds₁.length ∧ ds₁.all Char.isDigit = true
    ∧ 0 < ds₂.length ∧ ds₂.all Char.isDigit = true
    ∧ (tail = [] ∨ tail = ['\n'])
    ∧ s = sign ++ (ds₁ ++ '.' :: ds₂ ++ tail)

/-- Enumeration `SMUChannel` of `keysight_u2723_wrapper.py`; `value` is the
numeric channel index substituted into the `(@<channel>)` suffix. -/
inductive SMUChannel
  | CH1
  | CH2
  | CH3
deriving DecidableEq

/-- Numeric `.value` of an `SMUChannel` member. -/
def SMUChannel.value : SMUChannel → ℕ
  | .CH1 => 1
  | .CH2 => 2
  | .CH3 => 3

/-- Enumeration `SMUMemoryList` of `keysight_u2723_wrapper.py`. -/
inductive SMUMemoryList
  | Mem1
  | Mem2
deriving DecidableEq

/-- Numeric `.value` of an `SMUMemoryList` member. -/
def SMUMemoryList.value : SMUMemoryList → ℕ
  | .Mem1 => 1
  | .Mem2 => 2

/-- Enumeration `SMUVoltageRange` of `keysight_u2723_wrapper.py`. -/
inductive SMUVoltageRange
  | R2V
  | R20V
deriving DecidableEq

/-- Enumeration `SMUCurrentRange` of `keysight_u2723_wrapper.py`. -/
inductive SMUCurrentRange
  | R1uA
  | R10uA
  | R100uA
  | R1mA
  | R10mA
  | R120mA
deriving DecidableEq

/-- Abstract form of the protocol commands written by `KeysightU2723Wrapper`
and the memory-list utility functions.  Each constructor carries exactly the
parameters the Python code substitutes into the corresponding format string
(`ch` is the numeric channel index).  `rstStatusPresetCls` is the compound
`*rst; status:preset; *cls` line of `clear_presets` and `cls` the `*CLS`
line of `clear_status`. -/
inductive SMUCmd
  | sourCurrLevImmAmpl (v : ℚ) (ch : ℕ)
  | sourVoltLevImmAmpl (v : ℚ) (ch : ℕ)
  | sourVoltLim (v : ℚ) (ch : ℕ)
  | sourCurrLim (v : ℚ) (ch : ℕ)
  | sourCurrRang (r : SMUCurrentRange) (ch : ℕ)
  | sourVoltRang (r : SMUVoltageRange) (ch : ℕ)
  | outp (st : Bool) (ch : ℕ)
  | memList (mem : ℕ) (ch : ℕ)
  | memListClear (ch : ℕ)
  | memVoltRang (r : SMUVoltageRange) (ch : ℕ)
  | memCurrRang (r : SMUCurrentRange) (ch : ℕ)
  | memVoltLim (v : ℚ) (ch : ℕ)
  | memCurrLim (v : ℚ) (ch : ℕ)
  | memSourDelAuto (ch : ℕ)
  | memSourDelSing (d : ℚ) (ch : ℕ)
  | memVoltSour (v : ℚ) (ch : ℕ)
  | memCurrSour (v : ℚ) (ch : ℕ)
  | memCurrMeas (ch : ℕ)
  | memVoltMeas (ch : ℕ)
  | memOutp (st : Bool) (ch : ℕ)
  | memConfPoin (start stop : ℕ) (loops : ℤ) (ch : ℕ)
  | memListStor (ch : ℕ)
  | rstStatusPresetCls
  | cls
  | wai
  | raw (payload : ℕ)
deriving DecidableEq

namespace U2723

/-- Constant `MAX_VOLTAGE_LIMIT = 20` (V) of `keysight_u2723_wrapper.py`. -/
def MAX_VOLTAGE_LIMIT : ℚ := 20

/-- Constant `MIN_VOLTAGE_LIMIT = -20` (V) of `keysight_u2723_wrapper.py`. -/
def MIN_VOLTAGE_LIMIT : ℚ := -20

/-- Constant `MAX_CURRENT_LIMIT = 0.12` (A) of `keysight_u2723_wrapper.py`. -/
def MAX_CURRENT_LIMIT : ℚ := 0.12

/-- Constant `MIN_CURRENT_LIMIT = -0.12` (A) of `keysight_u2723_wrapper.py`. -/
def MIN_CURRENT_LIMIT : ℚ := -0.12

/-- Embedding of `KeysightU2723Wrapper.set_smu_source_current`:
raises (writing nothing) when the argument is outside
`[MIN_CURRENT_LIMIT, MAX_CURRENT_LIMIT]`, else writes
`SOUR:CURR:LEV:IMM:AMPL <v>, (@<ch>)`. -/
def set_smu_source_current (channel : SMUChannel) (src_current : ℚ) :
    List SMUCmd × PyOutcome :=
  if src_current < MIN_CURRENT_LIMIT ∨ src_current > MAX_CURRENT_LIMIT then
    ([], .raised)
  else
    ([.sourCurrLevImmAmpl src_current channel.value], .ok)

/-- Embedding of `KeysightU2723Wrapper.set_smu_source_voltage`:
raises (writing nothing) when the argument is outside
`[MIN_VOLTAGE_LIMIT, MAX_VOLTAGE_LIMIT]`, else writes
`SOUR:VOLT:LEV:IMM:AMPL <v>, (@<ch>)`. -/
def set_smu_source_voltage (channel : SMUChannel) (src_voltage : ℚ) :
    List SMUCmd × PyOutcome :=
  if src_voltage < MIN_VOLTAGE_LIMIT ∨ src_voltage > MAX_VOLTAGE_LIMIT then
    ([], .raised)
  else
    ([.sourVoltLevImmAmpl src_voltage channel.value], .ok)

/-- Embedding of `KeysightU2723Wrapper.enable_smu_channel`:
writes `OUTP 1, (@<ch>)`. -/
def enable_smu_channel (channel : SMUChannel) : List SMUCmd :=
  [.outp true channel.value]

/-- Embedding of `KeysightU2723Wrapper.disable_smu_channel`:
writes `OUTP 0, (@<ch>)`. -/
def disable_smu_channel (channel : SMUChannel) : List SMUCmd :=
  [.outp false channel.value]

/-- Embedding of `KeysightU2723Wrapper.clear_presets`:
writes the compound line `*rst; status:preset; *cls`. -/
def clear_presets : List SMUCmd := [.rstStatusPresetCls]

/-- Embedding of `KeysightU2723Wrapper.clear_status`: writes `*CLS`. -/
def clear_status : List SMUCmd := [.cls]

/-- Embedding of `KeysightU2723Wrapper.wait`: writes `*WAI`. -/
def wait : List SMUCmd := [.wai]

/-- Embedding of the generic `KeysightU2723Wrapper.write`: first calls
`wait` (writing `*WAI`), then writes the caller-supplied command. -/
def write (send_command : ℕ) : List SMUCmd := wait ++ [.raw send_command]

/-- Embedding of the generic `KeysightU2723Wrapper.query`: first calls
`wait` (writing `*WAI`), then sends the caller-supplied query. -/
def query (query_command : ℕ) : List SMUCmd := wait ++ [.raw query_command]

/-- Embedding of `KeysightU2723Wrapper.is_operation_complete` as a function
of the reply text to the `*OPC?` query: the Python code computes
`reply.find("1")` and returns `True` exactly when that index is `0`. -/
def is_operation_complete (reply : List Char) : Bool :=
  pyStrFindChar '1' reply = 0

/-- Embedding of `KeysightU2723SourceMeasureUnit.__exit__` (which ignores
the exception information passed to it): calls `clear_presets`, then
`clear_status`, then `close` (which writes nothing). -/
def sourceMeasureUnitExit (excInfo : Option Unit) : List SMUCmd :=
  match excInfo with
  | _ => clear_presets ++ clear_status

end U2723

/-- Truthiness-guarded delay block shared by the two source-and-measure
memory-list generators: Python `if measure_delay_ms:` takes the branch only
for a present, non-zero delay, in which case a single delay step and a
re-assertion of the source level are written. -/
def measureDelayBlock (measure_delay_ms : Option ℤ) (step : SMUCmd)
    (delayStep : ℤ → SMUCmd) : List SMUCmd :=
  match measure_delay_ms with
  | none => []
  | some d => if d = 0 then [] else [delayStep d, step]

/-- Embedding of the utility function `smu_source_voltage_measure_current`
(at the granularity of its `smu.write` calls, each of which sends the listed
program command through the generic `write`): select memory list, clear it,
set voltage/current range and current limit, enable auto delay, source the
voltage, switch the output step on, optionally insert a timed delay plus a
re-assertion of the source level, write `measure_count` current-measurement
steps, switch the output step off, and store the list. -/
def smu_source_voltage_measure_current (channel : SMUChannel) (V_out : ℚ)
    (memory_list : SMUMemoryList) (measure_count : ℕ)
    (measure_delay_ms : Option ℤ) (current_limit : ℚ)
    (voltage_range : SMUVoltageRange) (current_range : SMUCurrentRange) :
    List SMUCmd :=
  [.memList memory_list.value channel.value,
   .memListClear channel.value,
   .memVoltRang voltage_range channel.value,
   .memCurrRang current_range channel.value,
   .memCurrLim current_limit channel.value,
   .memSourDelAuto channel.value,
   .memVoltSour V_out channel.value,
   .memOutp true channel.value]
  ++ measureDelayBlock measure_delay_ms (.memVoltSour V_out channel.value)
       (fun d => .memSourDelSing (d : ℚ) channel.value)
  ++ List.replicate measure_count (.memCurrMeas channel.value)
  ++ [.memOutp false channel.value,
      .memListStor channel.value]

/-- Embedding of the utility function `smu_source_current_measure_voltage`
(at the granularity of its `smu.write` calls): select memory list, clear it,
set voltage/current range and voltage limit, enable auto delay, source the
current, switch the output step on, optionally insert a timed delay plus a
re-assertion of the source level, write `measure_count` voltage-measurement
steps, switch the output step off, and store the list. -/
def smu_source_current_measure_voltage (channel : SMUChannel) (I_out : ℚ)
    (memory_list : SMUMemoryList) (measure_count : ℕ)
    (measure_delay_ms : Option ℤ) (voltage_limit : ℚ)
    (voltage_range : SMUVoltageRange) (current_range : SMUCurrentRange) :
    List SMUCmd :=
  [.memList memory_list.value channel.value,
   .memListClear channel.value,
   .memVoltRang voltage_range channel.value,
   .memCurrRang current_range channel.value,
   .memVoltLim voltage_limit channel.value,
   .memSourDelAuto channel.value,
   .memCurrSour I_out channel.value,
   .memOutp true channel.value]
  ++ measureDelayBlock measure_delay_ms (.memCurrSour I_out channel.value)
       (fun d => .memSourDelSing (d : ℚ) channel.value)
  ++ List.replicate measure_count (.memVoltMeas channel.value)
  ++ [.memOutp false channel.value,
      .memListStor channel.value]

/-- Embedding of the utility function `create_smu_pulse_current`
(at the granularity of its `smu.write` calls): select memory list, clear it,
set voltage/current ranges and limits, enable auto delay, write the pulse
steps (single timed delay, source current to the peak, source current back
to zero), configure the execution window with the hard-coded step indices
`1` and `8` and the loop count, and store the list. -/
def create_smu_pulse_current (channel : SMUChannel) (I_peak : ℚ)
    (pulse_width_ms : ℚ) (memory_list : SMUMemoryList) (loops : ℤ)
    (voltage_limit : ℚ) (current_limit : ℚ)
    (voltage_range : SMUVoltageRange) (current_range : SMUCurrentRange) :
    List SMUCmd :=
  [.memList memory_list.value channel.value,
   .memListClear channel.value,
   .memVoltRang voltage_range channel.value,
   .memCurrRang current_range channel.value,
   .memVoltLim voltage_limit channel.value,
   .memCurrLim current_limit channel.value,
   .memSourDelAuto channel.value,
   .memSourDelSing pulse_width_ms channel.value,
   .memCurrSour I_peak channel.value,
   .memCurrSour 0 channel.value,
   .memConfPoin 1 8 loops channel.value,
   .memListStor channel.value]

/-- Embedding of the utility function `create_smu_pulse_voltage`
(at the granularity of its `smu.write` calls): identical to
`create_smu_pulse_current` with the two source steps sourcing voltage. -/
def create_smu_pulse_voltage (channel : SMUChannel) (V_peak : ℚ)
    (pulse_width_ms : ℚ) (memory_list : SMUMemoryList) (loops : ℤ)
    (voltage_limit : ℚ) (current_limit : ℚ)
    (voltage_range : SMUVoltageRange) (current_range : SMUCurrentRange) :
    List SMUCmd :=
  [.memList memory_list.value channel.value,
   .memListClear channel.value,
   .memVoltRang voltage_range channel.value,
   .memCurrRang current_range channel.value,
   .memVoltLim voltage_limit channel.value,
   .memCurrLim current_limit channel.value,
   .memSourDelAuto channel.value,
   .memSourDelSing pulse_width_ms channel.value,
   .memVoltSour V_peak channel.value,
   .memVoltSour 0 channel.value,
   .memConfPoin 1 8 loops channel.value,
   .memListStor channel.value]

/-- Device-level trace of a memory-list program built through the generic
`write` helper: every program command is sent as `*WAI` followed by the
command itself. -/
def deviceTraceOfProgram (prog : List SMUCmd) : List SMUCmd :=
  match prog with
  | [] => []
  | c :: rest => SMUCmd.wai :: c :: deviceTraceOfProgram rest

/-! ### Helper predicates on commands -/

/-- The `*WAI` directive among U3606 commands. -/
def U36Cmd.isWai : U36Cmd → Bool
  | .wai => true
  | _ => false

/-- An output-enable write (`OUTP:STAT ON`) among U3606 commands. -/
def U36Cmd.isOutputEnable : U36Cmd → Bool
  | .outpStat true => true
  | _ => false

/-- The `*WAI` directive among U2723 commands. -/
def SMUCmd.isWai : SMUCmd → Bool
  | .wai => true
  | _ => false

/-- An output-enable write among U2723 commands: either the channel-output
enable `OUTP 1` or the memory-list output-on step `MEM:OUTP ON`. -/
def SMUCmd.isOutputEnable : SMUCmd → Bool
  | .outp true _ => true
  | .memOutp true _ => true
  | _ => false

/-- A channel-output disable write `OUTP 0` among U2723 commands. -/
def SMUCmd.isChannelDisable : SMUCmd → Bool
  | .outp false _ => true
  | _ => false

/-- A memory-list output-on/off step `MEM:OUTP`. -/
def SMUCmd.isMemOutpStep : SMUCmd → Bool
  | .memOutp _ _ => true
  | _ => false

/-- A current-measurement step `MEM:CURR:MEAS`. -/
def SMUCmd.isCurrMeasStep : SMUCmd → Bool
  | .memCurrMeas _ => true
  | _ => false

/-- A voltage-measurement step `MEM:VOLT:MEAS`. -/
def SMUCmd.isVoltMeasStep : SMUCmd → Bool
  | .memVoltMeas _ => true
  | _ => false

/-- A configure-execution-window command `MEM:CONF:POIN`. -/
def SMUCmd.isConfPoin : SMUCmd → Bool
  | .memConfPoin _ _ _ _ => true
  | _ => false

/-- Checks that in a trace every command other than `*WAI` itself is
immediately preceded by a `*WAI` directive; `prev` records whether the
element before the current position was a `*WAI`. -/
def allPrecededByWait (isW : α → Bool) : Bool → List α → Bool
  | _, [] => true
  | prev, c :: rest => (isW c || prev) && allPrecededByWait isW (isW c) rest

/-! ### Shared helper lemmas -/

/-- The standalone voltage setter either raises with an empty trace or
returns with exactly the setpoint write. -/
theorem set_dc_supply_output_voltage_shape (v : ℚ) :
    U3606.set_dc_supply_output_voltage v = ([], .raised) ∨
      U3606.set_dc_supply_output_voltage v
        = ([.sourVoltLevImmAmpl v], .ok) := by
  unfold U3606.set_dc_supply_output_voltage
  split <;> simp

/-- The standalone current setter either raises with an empty trace or
returns with exactly the setpoint write. -/
theorem set_dc_supply_output_current_shape (v : ℚ) :
    U3606.set_dc_supply_output_current v = ([], .raised) ∨
      U3606.set_dc_supply_output_current v
        = ([.sourCurrLevImmAmpl v], .ok) := by
  unfold U3606.set_dc_supply_output_current
  split <;> simp

/-- Every command of a program sent through the generic `write` helper is
immediately preceded by a `*WAI` directive. -/
theorem allPrecededByWait_deviceTrace (prog : List SMUCmd) (b : Bool) :
    allPrecededByWait SMUCmd.isWai b (deviceTraceOfProgram prog) = true := by
  induction prog generalizing b with
  | nil => rfl
  | cons c rest ih =>
    simp [deviceTraceOfProgram, allPrecededByWait, SMUCmd.isWai, ih]

/-- A `str.find` result is `-1` or a non-negative index. -/
theorem pyStrFindChar_ne_or (n : Char) (l : List Char) :
    pyStrFindChar n l = -1 ∨ 0 ≤ pyStrFindChar n l := by
  induction l with
  | nil => left; rfl
  | cons c rest ih =>
    by_cases h : c = n
    · right; simp [pyStrFindChar, h]
    · rcases ih with h1 | h1
      · left; simp [pyStrFindChar, h, h1]
      · right
        simp only [pyStrFindChar, if_neg h]
        split
        · omega
        · omega

/-! ### Claim theorems -/

/-- C10: `is_operation_complete` on both wrappers returns `True` exactly
when the reply text to the `*OPC?` query has the character `1` at index 0;
for the documented completion reply `+1` (where `1` is at index 1) it
returns `False`. -/
theorem C10_is_operation_complete (reply : List Char) :
    (U3606.is_operation_complete reply = true ↔ reply.head? = some '1')
    ∧ U2723.is_operation_complete reply = U3606.is_operation_complete reply
    ∧ U3606.is_operation_complete ['+', '1'] = false
    ∧ U2723.is_operation_complete ['+', '1'] = false := by
  refine ⟨?_, rfl, by decide, by decide⟩
  simp only [U3606.is_operation_complete, decide_eq_true_eq]
  cases reply with
  | nil => simp [pyStrFindChar]
  | cons c rest =>
    by_cases h : c = '1'
    · simp [pyStrFindChar, h]
    · simp only [pyStrFindChar, if_neg h, List.head?_cons]
      constructor
      · intro hz
        rcases pyStrFindChar_ne_or '1' rest with h1 | h1
        · rw [if_pos h1] at hz; omega
        · rw [if_neg (by omega)] at hz; omega
      · intro hz
        exact absurd (Option.some_inj.mp hz) h

/-- C2 counterexample: the scoped-session exit of the SMU context manager
writes only the preset-clear line followed by the status-clear line; its
trace contains no channel-output disable command at all, in particular none
before the preset clear. -/
theorem C2_counterexample :
    U2723.sourceMeasureUnitExit none = [.rstStatusPresetCls, .cls]
    ∧ (U2723.sourceMeasureUnitExit none).countP SMUCmd.isChannelDisable
        = 0 := by
  exact ⟨rfl, rfl⟩

/-- C2 amended: on every exit path (the exception information passed to
`__exit__` is ignored) the SMU scoped session writes the preset-clear line,
then the status-clear line, then closes; it issues no per-channel
output-disable command. -/
theorem C2_amended_exit (excInfo : Option Unit) :
    U2723.sourceMeasureUnitExit excInfo
      = U2723.clear_presets ++ U2723.clear_status
    ∧ (U2723.sourceMeasureUnitExit excInfo).countP SMUCmd.isChannelDisable
        = 0 := by
  cases excInfo <;> exact ⟨rfl, rfl⟩

/-- C5 counterexample: `enable_dc_output` is a wrapper operation whose only
command is written with no preceding `*WAI`, and a successful
`configure_dc_supply` call writes four commands none of which is (or is
preceded by) a `*WAI` directive. -/
theorem C5_counterexample :
    U3606.enable_dc_output = [.outpStat true]
    ∧ allPrecededByWait U36Cmd.isWai false U3606.enable_dc_output = false
    ∧ (U3606.configure_dc_supply .CONSTANT_VOLTAGE 5 30 1 .AUTO
          .AUTO).1.countP U36Cmd.isWai = 0
    ∧ (U3606.configure_dc_supply .CONSTANT_VOLTAGE 5 30 1 .AUTO
          .AUTO).1.length = 4 := by
  refine ⟨rfl, rfl, ?_, ?_⟩ <;> decide

/-- C5 amended: only the generic `write`/`query` helpers precede the sent
command with a `*WAI` directive; every command of a memory-list program
issued through the generic `write` is immediately preceded by `*WAI`. -/
theorem C5_amended_serialization (p : ℕ) (prog : List SMUCmd) :
    U3606.write p = [.wai, .raw p]
    ∧ U3606.query p = [.wai, .raw p]
    ∧ U2723.write p = [.wai, .raw p]
    ∧ U2723.query p = [.wai, .raw p]
    ∧ allPrecededByWait U36Cmd.isWai false (U3606.write p) = true
    ∧ allPrecededByWait SMUCmd.isWai false (U2723.write p) = true
    ∧ allPrecededByWait SMUCmd.isWai false (deviceTraceOfProgram prog)
        = true :=
  ⟨rfl, rfl, rfl, rfl, rfl, rfl, allPrecededByWait_deviceTrace prog false⟩

/-- C8: for every choice of parameters, `create_smu_pulse_current` emits no
output-enable command (neither a channel `OUTP 1` nor a memory-list
`MEM:OUTP ON` step), and the only configure-execution-window command it
emits references the fixed step indices 1 and 8 together with the requested
loop count. -/
theorem C8_pulse_current_fixed_window (channel : SMUChannel)
    (I_peak pulse_width_ms : ℚ) (memory_list : SMUMemoryList) (loops : ℤ)
    (voltage_limit current_limit : ℚ) (voltage_range : SMUVoltageRange)
    (current_range : SMUCurrentRange) :
    (create_smu_pulse_current channel I_peak pulse_width_ms memory_list
        loops voltage_limit current_limit voltage_range
        current_range).countP SMUCmd.isOutputEnable = 0
    ∧ (create_smu_pulse_current channel I_peak pulse_width_ms memory_list
        loops voltage_limit current_limit voltage_range
        current_range).filter SMUCmd.isConfPoin
      = [.memConfPoin 1 8 loops channel.value] := by
  constructor <;>
    simp [create_smu_pulse_current, SMUCmd.isOutputEnable, SMUCmd.isConfPoin,
      List.countP_cons, List.filter]

/-- C4: the setpoint setters enforce the hard bounds:
`set_dc_supply_output_voltage` accepts every value in `[0, 30]` V (emitting
the setpoint command) and raises for every value outside (e.g. `30.0001`);
`set_dc_supply_output_current` likewise for `[0, 1.05]` A;
`set_smu_source_voltage` for `[-20, 20]` V; `set_smu_source_current` for
`[-0.12, 0.12]` A (`0.13` and `-0.13` both raise); whenever a setter raises,
no command is written. -/
theorem C4_setter_bounds :
    (∀ v : ℚ, 0 ≤ v → v ≤ 30 →
      U3606.set_dc_supply_output_voltage v
        = ([.sourVoltLevImmAmpl v], .ok))
    ∧ (∀ v : ℚ, v < 0 ∨ 30 < v →
      U3606.set_dc_supply_output_voltage v = ([], .raised))
    ∧ (∀ v : ℚ, 0 ≤ v → v ≤ 1.05 →
      U3606.set_dc_supply_output_current v
        = ([.sourCurrLevImmAmpl v], .ok))
    ∧ (∀ v : ℚ, v < 0 ∨ 1.05 < v →
      U3606.set_dc_supply_output_current v = ([], .raised))
    ∧ (∀ (ch : SMUChannel) (v : ℚ), -20 ≤ v → v ≤ 20 →
      U2723.set_smu_source_voltage ch v
        = ([.sourVoltLevImmAmpl v ch.value], .ok))
    ∧ (∀ (ch : SMUChannel) (v : ℚ), v < -20 ∨ 20 < v →
      U2723.set_smu_source_voltage ch v = ([], .raised))
    ∧ (∀ (ch : SMUChannel) (v : ℚ), -0.12 ≤ v → v ≤ 0.12 →
      U2723.set_smu_source_current ch v
        = ([.sourCurrLevImmAmpl v ch.value], .ok))
    ∧ (∀ (ch : SMUChannel) (v : ℚ), v < -0.12 ∨ 0.12 < v →
      U2723.set_smu_source_current ch v = ([], .raised))
    ∧ U3606.set_dc_supply_output_voltage 30.0001 = ([], .raised)
    ∧ (∀ ch : SMUChannel,
      U2723.set_smu_source_current ch 0.13 = ([], .raised))
    ∧ (∀ ch : SMUChannel,
      U2723.set_smu_source_current ch (-0.13) = ([], .raised)) := by
  refine ⟨?_, ?_, ?_, ?_, ?_, ?_, ?_, ?_,
    by simp [U3606.set_dc_supply_output_voltage,
      U3606.MAX_VOLTAGE_LIMIT]; norm_num,
    fun ch => by simp [U2723.set_smu_source_current,
      U2723.MAX_CURRENT_LIMIT, U2723.MIN_CURRENT_LIMIT]; norm_num,
    fun ch => by simp [U2723.set_smu_source_current,
      U2723.MAX_CURRENT_LIMIT, U2723.MIN_CURRENT_LIMIT]; norm_num⟩
  · intro v h0 h1
    simp only [U3606.set_dc_supply_output_voltage, U3606.MAX_VOLTAGE_LIMIT]
    rw [if_neg (by push_neg; exact ⟨h0, h1⟩)]
  · intro v h
    simp only [U3606.set_dc_supply_output_voltage, U3606.MAX_VOLTAGE_LIMIT]
    rw [if_pos h]
  · intro v h0 h1
    simp only [U3606.set_dc_supply_output_current, U3606.MAX_CURRENT_LIMIT]
    rw [if_neg (by push_neg; exact ⟨h0, h1⟩)]
  · intro v h
    simp only [U3606.set_dc_supply_output_current, U3606.MAX_CURRENT_LIMIT]
    rw [if_pos h]
  · intro ch v h0 h1
    simp only [U2723.set_smu_source_voltage, U2723.MAX_VOLTAGE_LIMIT,
      U2723.MIN_VOLTAGE_LIMIT]
    rw [if_neg (by push_neg; exact ⟨h0, h1⟩)]
  · intro ch v h
    simp only [U2723.set_smu_source_voltage, U2723.MAX_VOLTAGE_LIMIT,
      U2723.MIN_VOLTAGE_LIMIT]
    rw [if_pos h]
  · intro ch v h0 h1
    simp only [U2723.set_smu_source_current, U2723.MAX_CURRENT_LIMIT,
      U2723.MIN_CURRENT_LIMIT]
    rw [if_neg (by push_neg; exact ⟨h0, h1⟩)]
  · intro ch v h
    simp only [U2723.set_smu_source_current, U2723.MAX_CURRENT_LIMIT,
      U2723.MIN_CURRENT_LIMIT]
    rw [if_pos h]

/-- Witness for C4: concrete accepted and rejected setpoints. -/
theorem C4_setter_bounds_witness :
    U3606.set_dc_supply_output_voltage 5 = ([.sourVoltLevImmAmpl 5], .ok)
    ∧ U3606.set_dc_supply_output_current 1
        = ([.sourCurrLevImmAmpl 1], .ok)
    ∧ U2723.set_smu_source_voltage .CH1 (-5)
        = ([.sourVoltLevImmAmpl (-5) 1], .ok)
    ∧ U2723.set_smu_source_current .CH2 0.05
        = ([.sourCurrLevImmAmpl 0.05 2], .ok)
    ∧ U3606.set_dc_supply_output_voltage 31 = ([], .raised) := by
  obtain ⟨h1, h2, h3, _, h5, _, h7, _, _⟩ := C4_setter_bounds
  exact ⟨h1 5 (by norm_num) (by norm_num), h3 1 (by norm_num) (by norm_num),
    h5 .CH1 (-5) (by norm_num) (by norm_num),
    h7 .CH2 0.05 (by norm_num) (by norm_num),
    h2 31 (Or.inr (by norm_num))⟩

/-- C1 counterexample: `configure_dc_supply` called in constant-voltage mode
with the out-of-range `output_value = 31` raises, but its trace already
contains one written command — the initial output disable. -/
theorem C1_counterexample :
    U3606.configure_dc_supply .CONSTANT_VOLTAGE 31 30 1 .AUTO .AUTO
      = ([.outpStat false], .raised)
    ∧ (U3606.configure_dc_supply .CONSTANT_VOLTAGE 31 30 1 .AUTO
        .AUTO).1.length = 1 := by
  refine ⟨?_, ?_⟩ <;> decide

/-- C1 amended: a standalone setter that raises has written nothing, and a
`configure_dc_supply` call that raises has written exactly the initial
output-disable command (the range check on `output_value` runs after that
write), so no mode-specific parameter write ever precedes the exception. -/
theorem C1_amended_failfast :
    (∀ v : ℚ, (U3606.set_dc_supply_output_voltage v).2 = .raised →
      (U3606.set_dc_supply_output_voltage v).1 = [])
    ∧ (∀ v : ℚ, (U3606.set_dc_supply_output_current v).2 = .raised →
      (U3606.set_dc_supply_output_current v).1 = [])
    ∧ (∀ (ch : SMUChannel) (v : ℚ),
      (U2723.set_smu_source_voltage ch v).2 = .raised →
      (U2723.set_smu_source_voltage ch v).1 = [])
    ∧ (∀ (ch : SMUChannel) (v : ℚ),
      (U2723.set_smu_source_current ch v).2 = .raised →
      (U2723.set_smu_source_current ch v).1 = [])
    ∧ (∀ (mode : DCOutputMode) (v ovl ocl : ℚ)
      (vr : DCOutputVoltageRange) (cr : DCOutputCurrentRange),
      (U3606.configure_dc_supply mode v ovl ocl vr cr).2 = .raised →
      (U3606.configure_dc_supply mode v ovl ocl vr cr).1
        = [.outpStat false]) := by
  refine ⟨?_, ?_, ?_, ?_, ?_⟩
  · intro v h
    unfold U3606.set_dc_supply_output_voltage at *
    split at h <;> simp_all
  · intro v h
    unfold U3606.set_dc_supply_output_current at *
    split at h <;> simp_all
  · intro ch v h
    unfold U2723.set_smu_source_voltage at *
    split at h <;> simp_all
  · intro ch v h
    unfold U2723.set_smu_source_current at *
    split at h <;> simp_all
  · intro mode v ovl ocl vr cr h
    cases mode with
    | CONSTANT_VOLTAGE =>
      rcases set_dc_supply_output_voltage_shape v with hs | hs <;>
        simp [U3606.configure_dc_supply, hs, U3606.disable_dc_output]
          at h ⊢
    | CONSTANT_CURRENT =>
      rcases set_dc_supply_output_current_shape v with hs | hs <;>
        simp [U3606.configure_dc_supply, hs, U3606.disable_dc_output]
          at h ⊢

/-- Witness for the amended C1 at concrete rejected inputs. -/
theorem C1_amended_failfast_witness :
    (U3606.set_dc_supply_output_voltage 31).1 = []
    ∧ (U3606.configure_dc_supply .CONSTANT_CURRENT 2 30 1 .AUTO .AUTO).1
        = [.outpStat false] := by
  obtain ⟨h1, _, _, _, h5⟩ := C1_amended_failfast
  exact ⟨h1 31 (by decide),
    h5 .CONSTANT_CURRENT 2 30 1 .AUTO .AUTO
      (by norm_num [U3606.configure_dc_supply,
        U3606.set_dc_supply_output_current, U3606.MAX_CURRENT_LIMIT,
        U3606.disable_dc_output])⟩

/-- C6: every `configure_dc_supply` call (whatever its arguments) first
emits the output-disable command before any mode-specific parameter write,
emits no output-enable command, and enabling is done only by the separate
`enable_dc_output` call. -/
theorem C6_configure_transitions_through_off (output_mode : DCOutputMode)
    (output_value ovl ocl : ℚ) (vr : DCOutputVoltageRange)
    (cr : DCOutputCurrentRange) :
    (U3606.configure_dc_supply output_mode output_value ovl ocl vr
        cr).1.head? = some (.outpStat false)
    ∧ (U3606.configure_dc_supply output_mode output_value ovl ocl vr
        cr).1.countP U36Cmd.isOutputEnable = 0
    ∧ U3606.enable_dc_output = [.outpStat true] := by
  refine ⟨?_, ?_, rfl⟩ <;>
  · cases output_mode with
    | CONSTANT_VOLTAGE =>
      rcases set_dc_supply_output_voltage_shape output_value with hs | hs <;>
        simp [U3606.configure_dc_supply, hs, U3606.disable_dc_output,
          U36Cmd.isOutputEnable, List.countP_cons]
    | CONSTANT_CURRENT =>
      rcases set_dc_supply_output_current_shape output_value with hs | hs <;>
        simp [U3606.configure_dc_supply, hs, U3606.disable_dc_output,
          U36Cmd.isOutputEnable, List.countP_cons]

/-- C7: for every `measure_count`, the source-and-measure generators emit
exactly `measure_count` measurement-step commands, and the emitted sequence
is ordered: memory-list select, clear, range/limit setup, auto-delay,
source level, output-on step, then (after the optional delay block) the
measurement steps immediately followed by the output-off step and the store
command at the very end. -/
theorem C7_source_measure_ordering (channel : SMUChannel) (V_out I_out : ℚ)
    (memory_list : SMUMemoryList) (measure_count : ℕ)
    (measure_delay_ms : Option ℤ) (current_limit voltage_limit : ℚ)
    (voltage_range : SMUVoltageRange) (current_range : SMUCurrentRange) :
    (smu_source_voltage_measure_current channel V_out memory_list
        measure_count measure_delay_ms current_limit voltage_range
        current_range).countP SMUCmd.isCurrMeasStep = measure_count
    ∧ (smu_source_voltage_measure_current channel V_out memory_list
        measure_count measure_delay_ms current_limit voltage_range
        current_range)[0]?
      = some (.memList memory_list.value channel.value)
    ∧ (smu_source_voltage_measure_current channel V_out memory_list
        measure_count measure_delay_ms current_limit voltage_range
        current_range)[1]? = some (.memListClear channel.value)
    ∧ (smu_source_voltage_measure_current channel V_out memory_list
        measure_count measure_delay_ms current_limit voltage_range
        current_range)[2]?
      = some (.memVoltRang voltage_range channel.value)
    ∧ (smu_source_voltage_measure_current channel V_out memory_list
        measure_count measure_delay_ms current_limit voltage_range
        current_range)[3]?
      = some (.memCurrRang current_range channel.value)
    ∧ (smu_source_voltage_measure_current channel V_out memory_list
        measure_count measure_delay_ms current_limit voltage_range
        current_range)[4]?
      = some (.memCurrLim current_limit channel.value)
    ∧ (smu_source_voltage_measure_current channel V_out memory_list
        measure_count measure_delay_ms current_limit voltage_range
        current_range)[5]? = some (.memSourDelAuto channel.value)
    ∧ (smu_source_voltage_measure_current channel V_out memory_list
        measure_count measure_delay_ms current_limit voltage_range
        current_range)[6]? = some (.memVoltSour V_out channel.value)
    ∧ (smu_source_voltage_measure_current channel V_out memory_list
        measure_count measure_delay_ms current_limit voltage_range
        current_range)[7]? = some (.memOutp true channel.value)
    ∧ (∃ rest, (smu_source_voltage_measure_current channel V_out memory_list
        measure_count measure_delay_ms current_limit voltage_range
        current_range).reverse
      = .memListStor channel.value :: .memOutp false channel.value ::
          (List.replicate measure_count (.memCurrMeas channel.value)
            ++ rest))
    ∧ (smu_source_current_measure_voltage channel I_out memory_list
        measure_count measure_delay_ms voltage_limit voltage_range
        current_range).countP SMUCmd.isVoltMeasStep = measure_count
    ∧ (smu_source_current_measure_voltage channel I_out memory_list
        measure_count measure_delay_ms voltage_limit voltage_range
        current_range)[0]?
      = some (.memList memory_list.value channel.value)
    ∧ (smu_source_current_measure_voltage channel I_out memory_list
        measure_count measure_delay_ms voltage_limit voltage_range
        current_range)[1]? = some (.memListClear channel.value)
    ∧ (smu_source_current_measure_voltage channel I_out memory_list
        measure_count measure_delay_ms voltage_limit voltage_range
        current_range)[2]?
      = some (.memVoltRang voltage_range channel.value)
    ∧ (smu_source_current_measure_voltage channel I_out memory_list
        measure_count measure_delay_ms voltage_limit voltage_range
        current_range)[3]?
      = some (.memCurrRang current_range channel.value)
    ∧ (smu_source_current_measure_voltage channel I_out memory_list
        measure_count measure_delay_ms voltage_limit voltage_range
        current_range)[4]?
      = some (.memVoltLim voltage_limit channel.value)
    ∧ (smu_source_current_measure_voltage channel I_out memory_list
        measure_count measure_delay_ms voltage_limit voltage_range
        current_range)[5]? = some (.memSourDelAuto channel.value)
    ∧ (smu_source_current_measure_voltage channel I_out memory_list
        measure_count measure_delay_ms voltage_limit voltage_range
        current_range)[6]? = some (.memCurrSour I_out channel.value)
    ∧ (smu_source_current_measure_voltage channel I_out memory_list
        measure_count measure_delay_ms voltage_limit voltage_range
        current_range)[7]? = some (.memOutp true channel.value)
    ∧ (∃ rest, (smu_source_current_measure_voltage channel I_out memory_list
        measure_count measure_delay_ms voltage_limit voltage_range
        current_range).reverse
      = .memListStor channel.value :: .memOutp false channel.value ::
          (List.replicate measure_count (.memVoltMeas channel.value)
            ++ rest)) := by
  refine ⟨?_, ?_, ?_, ?_, ?_, ?_, ?_, ?_, ?_, ?_, ?_, ?_, ?_, ?_, ?_, ?_,
    ?_, ?_, ?_, ?_⟩
  · rcases measure_delay_ms with _ | d <;>
      simp [smu_source_voltage_measure_current, measureDelayBlock,
        SMUCmd.isCurrMeasStep, List.countP_append, List.countP_cons,
        List.countP_replicate]
    by_cases hd : d = 0 <;> simp [hd, SMUCmd.isCurrMeasStep]
  · simp [smu_source_voltage_measure_current]
  · simp [smu_source_voltage_measure_current]
  · simp [smu_source_voltage_measure_current]
  · simp [smu_source_voltage_measure_current]
  · simp [smu_source_voltage_measure_current]
  · simp [smu_source_voltage_measure_current]
  · simp [smu_source_voltage_measure_current]
  · simp [smu_source_voltage_measure_current]
  · refine ⟨(measureDelayBlock measure_delay_ms
        (.memVoltSour V_out channel.value)
        (fun d => .memSourDelSing (d : ℚ) channel.value)).reverse ++
      [SMUCmd.memList memory_list.value channel.value,
       .memListClear channel.value,
       .memVoltRang voltage_range channel.value,
       .memCurrRang current_range channel.value,
       .memCurrLim current_limit channel.value,
       .memSourDelAuto channel.value,
       .memVoltSour V_out channel.value,
       .memOutp true channel.value].reverse, ?_⟩
    simp [smu_source_voltage_measure_current, List.reverse_append,
      List.reverse_replicate]
  · rcases measure_delay_ms with _ | d <;>
      simp [smu_source_current_measure_voltage, measureDelayBlock,
        SMUCmd.isVoltMeasStep, List.countP_append, List.countP_cons,
        List.countP_replicate]
    by_cases hd : d = 0 <;> simp [hd, SMUCmd.isVoltMeasStep]
  · simp [smu_source_current_measure_voltage]
  · simp [smu_source_current_measure_voltage]
  · simp [smu_source_current_measure_voltage]
  · simp [smu_source_current_measure_voltage]
  · simp [smu_source_current_measure_voltage]
  · simp [smu_source_current_measure_voltage]
  · simp [smu_source_current_measure_voltage]
  · simp [smu_source_current_measure_voltage]
  · refine ⟨(measureDelayBlock measure_delay_ms
        (.memCurrSour I_out channel.value)
        (fun d => .memSourDelSing (d : ℚ) channel.value)).reverse ++
      [SMUCmd.memList memory_list.value channel.value,
       .memListClear channel.value,
       .memVoltRang voltage_range channel.value,
       .memCurrRang current_range channel.value,
       .memVoltLim voltage_limit channel.value,
       .memSourDelAuto channel.value,
       .memCurrSour I_out channel.value,
       .memOutp true channel.value].reverse, ?_⟩
    simp [smu_source_current_measure_voltage, List.reverse_append,
      List.reverse_replicate]

/-- C3 counterexample: the pulse-current builder (here with peak 0.02 A,
width 5 ms, 2 loops, slot 1, channel 2 — the scenario of the spec) ends with
the configure-execution-window command followed by the store command, and
emits no memory-list output-off (or output-on) step anywhere, so its last
two commands are not an output-off step followed by store. -/
theorem C3_counterexample :
    (create_smu_pulse_current .CH2 0.02 5 .Mem1 2 20 0.1 .R20V
        .R120mA).reverse[0]? = some (.memListStor 2)
    ∧ (create_smu_pulse_current .CH2 0.02 5 .Mem1 2 20 0.1 .R20V
        .R120mA).reverse[1]? = some (.memConfPoin 1 8 2 2)
    ∧ (create_smu_pulse_current .CH2 0.02 5 .Mem1 2 20 0.1 .R20V
        .R120mA).countP SMUCmd.isMemOutpStep = 0 := by
  exact ⟨rfl, rfl, rfl⟩

/-- C3 amended: every memory-list builder emits the clear-slot command
immediately after selecting the slot, and ends with the store command; the
two source-and-measure builders additionally emit the output-off step as
the second-to-last command, while the two pulse builders end with the
configure-execution-window command before the store and emit no output
on/off step at all. -/
theorem C3_amended_builder_ordering (channel : SMUChannel)
    (V_out I_out I_peak V_peak pulse_width_ms : ℚ)
    (memory_list : SMUMemoryList) (measure_count : ℕ)
    (measure_delay_ms : Option ℤ) (loops : ℤ)
    (current_limit voltage_limit : ℚ) (voltage_range : SMUVoltageRange)
    (current_range : SMUCurrentRange) :
    (smu_source_voltage_measure_current channel V_out memory_list
        measure_count measure_delay_ms current_limit voltage_range
        current_range)[0]?
      = some (.memList memory_list.value channel.value)
    ∧ (smu_source_voltage_measure_current channel V_out memory_list
        measure_count measure_delay_ms current_limit voltage_range
        current_range)[1]? = some (.memListClear channel.value)
    ∧ (smu_source_voltage_measure_current channel V_out memory_list
        measure_count measure_delay_ms current_limit voltage_range
        current_range).reverse[0]? = some (.memListStor channel.value)
    ∧ (smu_source_voltage_measure_current channel V_out memory_list
        measure_count measure_delay_ms current_limit voltage_range
        current_range).reverse[1]? = some (.memOutp false channel.value)
    ∧ (smu_source_current_measure_voltage channel I_out memory_list
        measure_count measure_delay_ms voltage_limit voltage_range
        current_range)[0]?
      = some (.memList memory_list.value channel.value)
    ∧ (smu_source_current_measure_voltage channel I_out memory_list
        measure_count measure_delay_ms voltage_limit voltage_range
        current_range)[1]? = some (.memListClear channel.value)
    ∧ (smu_source_current_measure_voltage channel I_out memory_list
        measure_count measure_delay_ms voltage_limit voltage_range
        current_range).reverse[0]? = some (.memListStor channel.value)
    ∧ (smu_source_current_measure_voltage channel I_out memory_list
        measure_count measure_delay_ms voltage_limit voltage_range
        current_range).reverse[1]? = some (.memOutp false channel.value)
    ∧ (create_smu_pulse_current channel I_peak pulse_width_ms memory_list
        loops voltage_limit current_limit voltage_range current_range)[0]?
      = some (.memList memory_list.value channel.value)
    ∧ (create_smu_pulse_current channel I_peak pulse_width_ms memory_list
        loops voltage_limit current_limit voltage_range current_range)[1]?
      = some (.memListClear channel.value)
    ∧ (create_smu_pulse_current channel I_peak pulse_width_ms memory_list
        loops voltage_limit current_limit voltage_range
        current_range).reverse[0]? = some (.memListStor channel.value)
    ∧ (create_smu_pulse_current channel I_peak pulse_width_ms memory_list
        loops voltage_limit current_limit voltage_range
        current_range).reverse[1]?
      = some (.memConfPoin 1 8 loops channel.value)
    ∧ (create_smu_pulse_current channel I_peak pulse_width_ms memory_list
        loops voltage_limit current_limit voltage_range
        current_range).countP SMUCmd.isMemOutpStep = 0
    ∧ (create_smu_pulse_voltage channel V_peak pulse_width_ms memory_list
        loops voltage_limit current_limit voltage_range current_range)[0]?
      = some (.memList memory_list.value channel.value)
    ∧ (create_smu_pulse_voltage channel V_peak pulse_width_ms memory_list
        loops voltage_limit current_limit voltage_range current_range)[1]?
      = some (.memListClear channel.value)
    ∧ (create_smu_pulse_voltage channel V_peak pulse_width_ms memory_list
        loops voltage_limit current_limit voltage_range
        current_range).reverse[0]? = some (.memListStor channel.value)
    ∧ (create_smu_pulse_voltage channel V_peak pulse_width_ms memory_list
        loops voltage_limit current_limit voltage_range
        current_range).reverse[1]?
      = some (.memConfPoin 1 8 loops channel.value)
    ∧ (create_smu_pulse_voltage channel V_peak pulse_width_ms memory_list
        loops voltage_limit current_limit voltage_range
        current_range).countP SMUCmd.isMemOutpStep = 0 := by
  refine ⟨?_, ?_, ?_, ?_, ?_, ?_, ?_, ?_, ?_, ?_, ?_, ?_, ?_, ?_, ?_, ?_,
    ?_, ?_⟩ <;>
    simp [smu_source_voltage_measure_current,
      smu_source_current_measure_voltage, create_smu_pulse_current,
      create_smu_pulse_voltage, List.reverse_append,
      List.reverse_replicate, SMUCmd.isMemOutpStep, List.countP_cons]

/-- Dropping leading digits from a digit run followed by a non-digit-headed
remainder yields exactly the remainder. -/
theorem dropWhile_digits_append (ds r : List Char)
    (h : ds.all Char.isDigit = true) (hr : headNotDigit r = true) :
    (ds ++ r).dropWhile Char.isDigit = r := by
  induction ds with
  | nil =>
    cases r with
    | nil => rfl
    | cons c t =>
      simp only [headNotDigit, Bool.not_eq_true'] at hr
      simp [List.dropWhile, hr]
  | cons d ds ih =>
    simp only [List.all_cons, Bool.and_eq_true] at h
    simp [List.dropWhile, h.1, ih h.2]

/-- Completeness of the `\d+` step: on a nonempty digit run followed by a
non-digit-headed remainder it succeeds and returns the remainder. -/
theorem matchDigits1_complete (ds r : List Char) (h0 : 0 < ds.length)
    (h : ds.all Char.isDigit = true) (hr : headNotDigit r = true) :
    matchDigits1 (ds ++ r) = some r := by
  cases ds with
  | nil => simp at h0
  | cons d ds =>
    simp only [List.all_cons, Bool.and_eq_true] at h
    simp [matchDigits1, h.1, dropWhile_digits_append ds r h.2 hr]

/-- Soundness of the `\d+` step: a successful run splits its input into a
nonempty digit run and the returned remainder, which does not start with a
digit. -/
theorem matchDigits1_sound (l r : List Char) (h : matchDigits1 l = some r) :
    ∃ ds, 0 < ds.length ∧ ds.all Char.isDigit = true ∧ l = ds ++ r
      ∧ headNotDigit r = true := by
  cases l with
  | nil => simp [matchDigits1] at h
  | cons c t =>
    by_cases hc : c.isDigit
    · simp only [matchDigits1, if_pos hc, Option.some_inj] at h
      refine ⟨c :: t.takeWhile Char.isDigit, by simp, ?_, ?_, ?_⟩
      · simp only [List.all_cons, hc, Bool.true_and]
        exact List.all_takeWhile
      · rw [← h]
        simp [List.takeWhile_append_dropWhile]
      · rw [← h]
        cases hd : t.dropWhile Char.isDigit with
        | nil => rfl
        | cons x xs =>
          have hx := List.head?_dropWhile_not (p := Char.isDigit) (l := t)
          rw [hd] at hx
          simp only [List.head?_cons] at hx
          simp [headNotDigit, hx]
    · simp [matchDigits1, hc] at h

/-- A dot never starts with a digit. -/
theorem headNotDigit_dot (x : List Char) :
    headNotDigit ('.' :: x) = true := rfl

/-- The regex end anchor positions (empty or a single newline) do not start
with a digit. -/
theorem headNotDigit_lineEnd (tail : List Char)
    (h : tail = [] ∨ tail = ['\n']) : headNotDigit tail = true := by
  rcases h with rfl | rfl <;> rfl

/-- The unsigned part of the `read_logged_data` regex accepts exactly the
inputs of the form digit-run, dot, digit-run, optional trailing newline. -/
theorem unsignedDecimalMatch_iff (t : List Char) :
    unsignedDecimalMatch t = true ↔
      ∃ (ds₁ ds₂ tail : List Char),
        0 < ds₁.length ∧ ds₁.all Char.isDigit = true
        ∧ 0 < ds₂.length ∧ ds₂.all Char.isDigit = true
        ∧ (tail = [] ∨ tail = ['\n'])
        ∧ t = ds₁ ++ '.' :: ds₂ ++ tail := by
  constructor
  · intro h
    unfold unsignedDecimalMatch at h
    split at h
    · exact absurd h (by simp)
    next s2 hm1 =>
      split at h
      · next u w =>
        split at h
        · exact absurd h (by simp)
        next s4 hm2 =>
          obtain ⟨ds₁, hl1, hd1, ht1, _⟩ := matchDigits1_sound t _ hm1
          obtain ⟨ds₂, hl2, hd2, ht2, _⟩ := matchDigits1_sound w _ hm2
          refine ⟨ds₁, ds₂, s4, hl1, hd1, hl2, hd2, ?_, ?_⟩
          · simpa [matchLineEnd] using h
          · rw [ht1, ht2]; simp
      · exact absurd h (by simp)
  · rintro ⟨ds₁, ds₂, tail, h1, hd1, h2, hd2, htail, rfl⟩
    have e2 : matchDigits1 (ds₂ ++ tail) = some tail :=
      matchDigits1_complete ds₂ tail h2 hd2 (headNotDigit_lineEnd tail htail)
    have e1 : matchDigits1 (ds₁ ++ ('.' :: (ds₂ ++ tail)))
        = some ('.' :: (ds₂ ++ tail)) :=
      matchDigits1_complete ds₁ ('.' :: (ds₂ ++ tail)) h1 hd1
        (headNotDigit_dot _)
    have ht : ds₁ ++ '.' :: ds₂ ++ tail = ds₁ ++ ('.' :: (ds₂ ++ tail)) := by
      simp
    unfold unsignedDecimalMatch
    rw [ht, e1]
    rcases htail with rfl | rfl <;> simp_all [matchLineEnd]

/-- The full `read_logged_data` regex accepts exactly the sign-optional
decimal tokens described by `decimalTokenShape`. -/
theorem loggedDataNumericMatch_iff (s : List Char) :
    loggedDataNumericMatch s = true ↔ decimalTokenShape s := by
  constructor
  · intro h
    cases s with
    | nil =>
      simp [loggedDataNumericMatch, unsignedDecimalMatch, matchDigits1]
        at h
    | cons c rest =>
      by_cases hc : c = '-'
      · subst hc
        simp only [loggedDataNumericMatch, if_pos rfl] at h
        obtain ⟨ds₁, ds₂, tail, h1, hd1, h2, hd2, htail, rfl⟩ :=
          (unsignedDecimalMatch_iff rest).mp h
        exact ⟨['-'], ds₁, ds₂, tail, Or.inr rfl, h1, hd1, h2, hd2, htail,
          by simp⟩
      · simp only [loggedDataNumericMatch, if_neg hc] at h
        obtain ⟨ds₁, ds₂, tail, h1, hd1, h2, hd2, htail, hrest⟩ :=
          (unsignedDecimalMatch_iff (c :: rest)).mp h
        exact ⟨[], ds₁, ds₂, tail, Or.inl rfl, h1, hd1, h2, hd2, htail,
          by simp [hrest]⟩
  · rintro ⟨sign, ds₁, ds₂, tail, hsign, h1, hd1, h2, hd2, htail, rfl⟩
    rcases hsign with rfl | rfl
    · obtain ⟨d, ds', rfl⟩ : ∃ d ds', ds₁ = d :: ds' := by
        cases ds₁ with
        | nil => simp at h1
        | cons d t => exact ⟨d, t, rfl⟩
      have hd : d.isDigit = true := by
        simp only [List.all_cons, Bool.and_eq_true] at hd1
        exact hd1.1
      have hne : d ≠ '-' := by
        intro hq
        rw [hq] at hd
        exact absurd hd (by decide)
      simp only [List.nil_append, List.cons_append, loggedDataNumericMatch,
        if_neg hne]
      exact (unsignedDecimalMatch_iff _).mpr
        ⟨d :: ds', ds₂, tail, h1, hd1, h2, hd2, htail, by simp⟩
    · simp only [List.singleton_append, loggedDataNumericMatch, if_pos rfl]
      exact (unsignedDecimalMatch_iff _).mpr
        ⟨ds₁, ds₂, tail, h1, hd1, h2, hd2, htail, rfl⟩

/-- C9 counterexample: the integer-form reply `12` and the
scientific-notation reply `1.5E3` are both returned as raw strings by
`read_logged_data`, not as floats. -/
theorem C9_counterexample :
    read_logged_data ['1', '2'] = .txt ['1', '2']
    ∧ read_logged_data ['1', '.', '5', 'E', '3']
        = .txt ['1', '.', '5', 'E', '3'] := by
  exact ⟨rfl, rfl⟩

/-- C9 amended: `read_logged_data` classifies a reply as numeric (returning
a float) exactly when it is a sign-optional decimal token with a mandatory
fractional part — a digit run, a dot, a digit run, up to a trailing
newline; every other reply, including integer-form and scientific-notation
numerals and the end-of-data text, is returned as the raw string. -/
theorem C9_amended_classification (s : List Char) :
    (read_logged_data s = .num s ↔ decimalTokenShape s)
    ∧ read_logged_data ['E', 'N', 'D'] = .txt ['E', 'N', 'D']
    ∧ read_logged_data ['1', '2', '.', '5'] = .num ['1', '2', '.', '5']
    ∧ read_logged_data ['-', '0', '.', '3'] = .num ['-', '0', '.', '3'] := by
  refine ⟨?_, rfl, rfl, rfl⟩
  unfold read_logged_data
  by_cases h : loggedDataNumericMatch s = true
  · rw [if_pos h]
    exact iff_of_true rfl ((loggedDataNumericMatch_iff s).mp h)
  · rw [if_neg h]
    constructor
    · intro hq
      simp at hq
    · intro hs
      exact absurd ((loggedDataNumericMatch_iff s).mpr hs) h

end PyPMTest
